import Mathlib

/-
Verification development for the AI-Enhanced Crop Monitoring repository.

Shallow embedding of the detection-to-recommendation core:
  * `ai_agent/rule_engine.py`   — RuleContext, the six agricultural rules,
    RuleEngine.evaluate and RuleEngine.evaluate_multiple_anomalies;
  * `ml_module/anomaly_detector.py` — IsolationForestDetector train / predict /
    score / detect_with_confidence (the sklearn IsolationForest itself is an
    external library, abstracted as function parameters);
  * `ai_agent/explanation_generator.py` — the deterministic template compositor;
  * `ai_agent/agent_service.py` — create_recommendation_for_anomaly against an
    abstract recommendation store.

Python floats are modelled as rationals (ℚ); Python `None` for an optional
list argument and the empty list are merged into `[]`, which is sound here
because every use in the source guards with truthiness (`if xs and len(xs)…`)
so `None` and `[]` take the same branch.
-/

/-! ## String helpers (Python `in`, `str.lower`, number rendering) -/

/-- Character-list version of Python prefix test, used by `strContains`. -/
def chStartsWith : List Char → List Char → Bool
  | [], _ => true
  | _ :: _, [] => false
  | a :: as, b :: bs => a == b && chStartsWith as bs

/-- `chHasSub needle hay`: does `needle` occur contiguously inside `hay`?
Models Python's `needle in hay` on strings (via `strContains`). -/
def chHasSub (needle : List Char) : List Char → Bool
  | [] => chStartsWith needle []
  | c :: t => chStartsWith needle (c :: t) || chHasSub needle t

/-- Python `needle in hay` for strings. -/
def strContains (hay needle : String) : Bool :=
  chHasSub needle.data hay.data

/-- Python `str.lower()` (ASCII case folding, which covers every label used
by the repository). -/
def strLower (s : String) : String :=
  String.mk (s.data.map Char.toLower)

/-- Python `str.strip()` with no argument: remove leading and trailing
whitespace.  (Implemented structurally on the character list; on the ASCII
strings this system produces it agrees with Python's whitespace set.) -/
def pyStrip (s : String) : String :=
  String.mk (((s.data.dropWhile Char.isWhitespace).reverse.dropWhile
    Char.isWhitespace).reverse)

/-- Zero-pad a natural number to two digits (strftime `%H`, `%M`, …). -/
def pad2 (n : Nat) : String :=
  if n < 10 then "0" ++ toString n else toString n

/-- Zero-pad a natural number to four digits (strftime `%Y`). -/
def pad4 (n : Nat) : String :=
  if n < 10 then "000" ++ toString n
  else if n < 100 then "00" ++ toString n
  else if n < 1000 then "0" ++ toString n
  else toString n

/-- Fixed-point rendering with one decimal digit, modelling Python's `:.1f`
format (Python rounds the underlying binary float half-to-even; on the exact
rationals used here we round half away from zero — no claim depends on the
rendered digits). -/
def fmt1 (q : ℚ) : String :=
  let n : ℤ := round (q * 10)
  (if n < 0 then "-" else "") ++ toString (n.natAbs / 10) ++ "." ++ toString (n.natAbs % 10)

/-- Fixed-point rendering with two decimal digits, modelling Python's `:.2f`. -/
def fmt2 (q : ℚ) : String :=
  let n : ℤ := round (q * 100)
  (if n < 0 then "-" else "") ++ toString (n.natAbs / 100) ++ "." ++ pad2 (n.natAbs % 100)

/-! ## Rule engine data model (`ai_agent/rule_engine.py`) -/

/-- `RuleContext` dataclass (rule_engine.py:12-21).  `recent_values: List[float] = None`
is modelled as a plain list with `None ≘ []` (see header note); the `timestamp`
field is never read by any rule and is omitted. -/
structure RuleContext where
  anomaly_type : String
  severity : String
  model_confidence : ℚ
  sensor_type : String
  plot_id : Int
  recent_values : List ℚ := []
  deriving Repr, DecidableEq

/-- The `details` sub-dictionary of a recommendation.  Each concrete rule
populates a different subset of keys; absent keys are `none` / `[]`. -/
structure Details where
  drop_percentage : Option ℚ := none
  initial_value : Option ℚ := none
  current_value : Option ℚ := none
  time_window : Option String := none
  current_humidity : Option ℚ := none
  current_reading : Option ℚ := none
  previous_reading : Option ℚ := none
  sensor_type : Option String := none
  model_confidence : Option ℚ := none
  risk_factors : List String := []
  recommended_actions : List String := []
  affected_sensors : List String := []
  max_severity : Option String := none
  anomaly_count : Option Nat := none
  deriving Repr, DecidableEq

/-- A recommendation dictionary as produced by the rules and the engine
(rule_engine.py).  `rule_name` / `rule_priority` are stamped on by
`RuleEngine.evaluate` (lines 380-381); rules themselves leave the defaults. -/
structure Recommendation where
  action : String
  description : String
  urgency : String
  confidence : ℚ
  reasoning : String
  details : Details := {}
  rule_name : String := ""
  rule_priority : Int := 0
  deriving Repr, DecidableEq

/-- A registered rule: name, fixed integer priority, and the `evaluate`
method.  The `Except` layer models the possibility of `evaluate` raising
(caught per-rule by the engine, rule_engine.py:383-385); all six concrete
rules of the repository are total and always return `.ok`. -/
structure AgriculturalRule where
  name : String
  priority : Int
  eval : RuleContext → Except String (Option Recommendation)

/-- `IrrigationFailureRule.evaluate` (rule_engine.py:57-102). -/
def IrrigationFailureRule.evaluate (context : RuleContext) : Option Recommendation :=
  if context.sensor_type ≠ "moisture" then none
  else if ¬ (context.severity = "HIGH" ∨ context.severity = "CRITICAL") then none
  else
    -- lines 73-92: the rapid-drop branch; falls through to the general
    -- moisture recommendation when it does not return.
    let rapid_drop : Option Recommendation :=
      if context.recent_values ≠ [] ∧ 3 ≤ context.recent_values.length then
        let initial := context.recent_values.headD 0
        let current := context.recent_values.getLastD 0
        let drop_percentage : ℚ :=
          if 0 < initial then ((initial - current) / initial) * 100 else 0
        if 10 < drop_percentage then
          some { action := "immediate_irrigation_check"
                 description := "Check irrigation system immediately - possible leak or pump failure"
                 urgency := "high"
                 confidence := min 0.95 (context.model_confidence + 0.1)
                 reasoning := "Soil moisture dropped " ++ fmt1 drop_percentage ++ "% rapidly"
                 details := { drop_percentage := some drop_percentage
                              initial_value := some initial
                              current_value := some current
                              time_window := some "recent readings" } }
        else none
      else none
    match rapid_drop with
    | some r => some r
    | none =>
        some { action := "irrigation_check"
               description := "Inspect irrigation system and verify water supply"
               urgency := "medium"
               confidence := context.model_confidence
               reasoning := "Abnormal moisture levels detected"
               details := {} }

/-- `HeatStressRule.evaluate` (rule_engine.py:111-155). -/
def HeatStressRule.evaluate (context : RuleContext) : Option Recommendation :=
  if context.sensor_type ≠ "temperature" then none
  else if context.severity = "CRITICAL" then
    some { action := "heat_stress_mitigation"
           description := "Apply heat stress mitigation - increase irrigation and consider shade"
           urgency := "high"
           confidence := context.model_confidence
           reasoning := "Critical temperature levels detected"
           details := { recommended_actions :=
             ["Increase irrigation frequency", "Deploy shade structures if available",
              "Monitor crop for wilting", "Consider early morning watering"] } }
  else if context.severity = "HIGH" ∨ context.severity = "MEDIUM" then
    some { action := "temperature_monitoring"
           description := "Monitor temperature closely and prepare heat mitigation measures"
           urgency := "medium"
           confidence := context.model_confidence
           reasoning := "Elevated temperature levels detected"
           details := { recommended_actions :=
             ["Monitor temperature trends", "Prepare irrigation system",
              "Check soil moisture levels"] } }
  else none

/-- `HumidityAnomalyRule.evaluate` (rule_engine.py:164-223). -/
def HumidityAnomalyRule.evaluate (context : RuleContext) : Option Recommendation :=
  if context.sensor_type ≠ "humidity" then none
  else
    -- lines 175-213: branches on the latest value; in-range values fall
    -- through to the general humidity recommendation.
    let special : Option Recommendation :=
      if context.recent_values ≠ [] ∧ 0 < context.recent_values.length then
        let current_humidity := context.recent_values.getLastD 0
        if 85 < current_humidity then
          some { action := "disease_prevention"
                 description := "High humidity detected - monitor for fungal diseases"
                 urgency := "medium"
                 confidence := context.model_confidence
                 reasoning := "Humidity at " ++ fmt1 current_humidity ++ "% increases disease risk"
                 details := { current_humidity := some current_humidity
                              risk_factors := ["Fungal diseases", "Bacterial infections"]
                              recommended_actions :=
                                ["Improve air circulation", "Inspect crops for disease symptoms",
                                 "Consider preventive fungicide application"] } }
        else if current_humidity < 30 then
          some { action := "humidity_management"
                 description := "Low humidity detected - crops may experience stress"
                 urgency := "medium"
                 confidence := context.model_confidence
                 reasoning := "Humidity at " ++ fmt1 current_humidity ++ "% may cause crop stress"
                 details := { current_humidity := some current_humidity
                              recommended_actions :=
                                ["Increase irrigation frequency", "Monitor crop for wilting",
                                 "Consider mulching to retain moisture"] } }
        else none
      else none
    match special with
    | some r => some r
    | none =>
        some { action := "humidity_monitoring"
               description := "Monitor humidity levels and adjust management practices"
               urgency := "low"
               confidence := context.model_confidence
               reasoning := "Abnormal humidity patterns detected"
               details := {} }

/-- `MultipleAnomalyRule.evaluate` (rule_engine.py:232-240): always `None`
in single-context evaluation; the multi-context entry point handles it. -/
def MultipleAnomalyRule.evaluate (_context : RuleContext) : Option Recommendation :=
  none

/-- `LowConfidenceRule.evaluate` (rule_engine.py:249-274). -/
def LowConfidenceRule.evaluate (context : RuleContext) : Option Recommendation :=
  if 0.4 ≤ context.model_confidence ∧ context.model_confidence ≤ 0.6 then
    some { action := "manual_inspection"
           description := "Monitor closely and verify with manual inspection"
           urgency := "low"
           confidence := context.model_confidence
           reasoning := "Low model confidence - verification needed"
           details := { model_confidence := some context.model_confidence
                        recommended_actions :=
                          ["Manual visual inspection of plot", "Verify sensor readings",
                           "Check sensor calibration", "Monitor for pattern development"] } }
  else none

/-- `SensorMalfunctionRule.evaluate` (rule_engine.py:283-341).  Python
interpolates the raw float repr into the reason strings; the digits are
rendered here with `fmt1` — no claim depends on them. -/
def SensorMalfunctionRule.evaluate (context : RuleContext) : Option Recommendation :=
  if context.recent_values = [] ∨ context.recent_values.length < 2 then none
  else
    let current := context.recent_values.getLastD 0
    let previous := context.recent_values.dropLast.getLastD 0
    -- lines 297-314: per-sensor physically-impossible ranges
    let range_reason : Option String :=
      if context.sensor_type = "moisture" then
        if current < 0 ∨ 100 < current then
          some ("Moisture reading " ++ fmt1 current ++ "% is outside valid range (0-100%)")
        else none
      else if context.sensor_type = "temperature" then
        if current < -20 ∨ 60 < current then
          some ("Temperature reading " ++ fmt1 current ++ "°C is outside expected range")
        else none
      else if context.sensor_type = "humidity" then
        if current < 0 ∨ 100 < current then
          some ("Humidity reading " ++ fmt1 current ++ "% is outside valid range (0-100%)")
        else none
      else none
    -- lines 317-319: impossible change rate, only checked when still possible
    let full_reason : Option String :=
      match range_reason with
      | some r => some r
      | none =>
          if 50 < |current - previous| then
            some ("Sudden change of " ++ fmt1 |current - previous| ++ " units is unlikely")
          else none
    match full_reason with
    | some reason =>
        some { action := "sensor_check"
               description := "Check sensor functionality - possible malfunction detected"
               urgency := "high"
               confidence := 0.8
               reasoning := reason
               details := { current_reading := some current
                            previous_reading := some previous
                            sensor_type := some context.sensor_type
                            recommended_actions :=
                              ["Inspect sensor physically", "Check sensor connections",
                               "Verify sensor calibration", "Consider sensor replacement if persistent"] } }
    | none => none

/-- The rule registry built by `RuleEngine.__init__` (rule_engine.py:349-361).
The constructor list is then stable-sorted by priority, highest first; the
priorities 10, 9, 8, 7, 6, 3 are already strictly descending in construction
order, so the sorted registry is this very list. -/
def RuleEngine.registered_rules : List AgriculturalRule :=
  [ { name := "multiple_anomaly", priority := 10,
      eval := fun c => .ok (MultipleAnomalyRule.evaluate c) },
    { name := "irrigation_failure", priority := 9,
      eval := fun c => .ok (IrrigationFailureRule.evaluate c) },
    { name := "heat_stress", priority := 8,
      eval := fun c => .ok (HeatStressRule.evaluate c) },
    { name := "humidity_anomaly", priority := 7,
      eval := fun c => .ok (HumidityAnomalyRule.evaluate c) },
    { name := "sensor_malfunction", priority := 6,
      eval := fun c => .ok (SensorMalfunctionRule.evaluate c) },
    { name := "low_confidence", priority := 3,
      eval := fun c => .ok (LowConfidenceRule.evaluate c) } ]

/-- The default recommendation returned when no rule fires
(rule_engine.py:393-402). -/
def default_recommendation (context : RuleContext) : Recommendation :=
  { action := "general_monitoring"
    description := "Continue monitoring - anomaly detected but no specific action identified"
    urgency := "low"
    confidence := context.model_confidence
    reasoning := "Anomaly detected without specific classification"
    rule_name := "default"
    rule_priority := 0
    details := {} }

/-- The `recommendations` list accumulated by the loop in
`RuleEngine.evaluate` (rule_engine.py:373-385): every rule is invoked; a
raising rule is caught and skipped; a firing rule's result is stamped with
`rule_name` / `rule_priority` and appended.
The Python loop appends each firing rule's stamped recommendation to an
accumulator in registry order; that is modelled by structural recursion
emitting each rule's contribution (one stamped recommendation, or nothing)
in the same order. -/
def fired_recommendations : List AgriculturalRule → RuleContext → List Recommendation
  | [], _ => []
  | rule :: rules, context =>
      (match rule.eval context with
       | .error _ => []
       | .ok none => []
       | .ok (some r) =>
           [{ r with rule_name := rule.name, rule_priority := rule.priority }]) ++
        fired_recommendations rules context

/-- Python's `max(first :: rest, key=lambda r: r['rule_priority'])`
(rule_engine.py:389): scans left to right keeping the current best and
replacing it only on a strictly greater key, hence returns the FIRST
element attaining the maximal priority. -/
def max_by_rule_priority (first : Recommendation) (rest : List Recommendation) :
    Recommendation :=
  rest.foldl (fun best r => if best.rule_priority < r.rule_priority then r else best) first

/-- `RuleEngine.evaluate` generalized over the rule registry
(rule_engine.py:363-402). -/
def RuleEngine.evaluate_with (rules : List AgriculturalRule) (context : RuleContext) :
    Recommendation :=
  match fired_recommendations rules context with
  | [] => default_recommendation context
  | best :: rest => max_by_rule_priority best rest

/-- `RuleEngine.evaluate` on the engine's own registry. -/
def RuleEngine.evaluate (context : RuleContext) : Recommendation :=
  RuleEngine.evaluate_with RuleEngine.registered_rules context

/-- `RuleEngine._severity_score` (rule_engine.py:444-453); unknown labels
score 0 via `dict.get(…, 0)`. -/
def severity_score (severity : String) : Int :=
  if severity = "CRITICAL" then 4
  else if severity = "HIGH" then 3
  else if severity = "MEDIUM" then 2
  else if severity = "LOW" then 1
  else if severity = "NORMAL" then 0
  else 0

/-- Python's `max(first :: rest, key=lambda c: severity_score(c.severity))`
(rule_engine.py:420): first maximal element wins. -/
def max_by_severity (first : RuleContext) (rest : List RuleContext) : RuleContext :=
  rest.foldl
    (fun best c =>
      if severity_score best.severity < severity_score c.severity then c else best)
    first

/-- `RuleEngine.evaluate_multiple_anomalies` (rule_engine.py:404-442).
For the empty list the Python body evaluates
`sum(...) / len(contexts)` with `len(contexts) = 0` and raises
`ZeroDivisionError` (line 419, before the `max` on line 420 is reached);
that raise is modelled as the `.error` arm.  The reasoning string joins
`set(sensor_types)`; CPython set iteration order is unspecified, modelled
here in first-occurrence order (`eraseDups`), which fixes the same set of
distinct sensor types. -/
def RuleEngine.evaluate_multiple_anomalies (contexts : List RuleContext) :
    Except String Recommendation :=
  match contexts with
  | [c] => .ok (RuleEngine.evaluate c)
  | [] => .error "ZeroDivisionError: division by zero"
  | c :: cs =>
      let sensor_types := (c :: cs).map (fun x => x.sensor_type)
      let avg_confidence :=
        ((c :: cs).map (fun x => x.model_confidence)).sum / ((c :: cs).length : ℚ)
      let max_severity := (max_by_severity c cs).severity
      .ok { action := "comprehensive_inspection"
            description := "Multiple anomalies detected - comprehensive plot inspection required"
            urgency := "high"
            confidence := avg_confidence
            reasoning := "Multiple sensor anomalies detected: " ++
              String.intercalate ", " sensor_types.eraseDups
            rule_name := "multiple_anomaly"
            rule_priority := 10
            details := { affected_sensors := sensor_types
                         max_severity := some max_severity
                         anomaly_count := some (c :: cs).length
                         recommended_actions :=
                           ["Comprehensive plot inspection", "Check all sensor systems",
                            "Verify irrigation system", "Assess crop health visually",
                            "Document all findings"] } }

/-! ## Isolation-forest detector (`ml_module/anomaly_detector.py`)

The sklearn `IsolationForest` object is an external library, not repository
code: it is abstracted as a type parameter `M` together with the functions the
repository calls on it (`fit`, `predict`, `score_samples`) and numpy's `std`.
Everything the repository itself does around those calls is embedded. -/

/-- The two typed failure conditions of the detector, matching the spec
taxonomy.  The Python code raises `ValueError` at two distinct sites with
distinct messages: "Need at least 10 samples…" (train, line 55) and
"Model not trained yet!…" (predict/score/detect, lines 94/111/127). -/
inductive DetectorError where
  | insufficientData (got : Nat)
  | modelNotTrained
  deriving Repr, DecidableEq

/-- Mutable state of `IsolationForestDetector` (anomaly_detector.py:29-41);
`M` is the abstracted sklearn model object.  The wall-clock `training_date`
field is omitted (never read by the embedded operations). -/
structure IsolationForestDetector (M : Type) where
  model : M
  is_trained : Bool
  training_data_size : Nat

/-- `IsolationForestDetector.__init__`: fresh detector around an unfitted
model object, not yet trained. -/
def IsolationForestDetector.init {M : Type} (model : M) : IsolationForestDetector M :=
  { model := model, is_trained := false, training_data_size := 0 }

/-- The training-statistics dictionary returned by `train`
(anomaly_detector.py:70-79), minus the wall-clock `training_date`. -/
structure TrainStats where
  trained : Bool
  n_samples : Nat
  n_features : Nat
  mean_score : ℚ
  std_score : ℚ
  min_score : ℚ
  max_score : ℚ
  deriving Repr, DecidableEq

/-- `np.min` of a (nonempty, in every actual call) list of scores. -/
def listMin : List ℚ → ℚ
  | [] => 0
  | [x] => x
  | x :: xs => min x (listMin xs)

/-- `np.max` of a (nonempty, in every actual call) list of scores. -/
def listMax : List ℚ → ℚ
  | [] => 0
  | [x] => x
  | x :: xs => max x (listMax xs)

/-- `IsolationForestDetector.train` (anomaly_detector.py:43-81).  `fit`,
`score_samples` and `np_std` stand for the external sklearn/numpy calls.
Fails before touching the model when fewer than 10 rows are supplied;
otherwise fits, flips `is_trained`, and returns the calibration stats. -/
def IsolationForestDetector.train {M : Type}
    (fit : M → List (List ℚ) → M)
    (score_samples : M → List (List ℚ) → List ℚ)
    (np_std : List ℚ → ℚ)
    (d : IsolationForestDetector M) (normal_data : List (List ℚ)) :
    Except DetectorError (IsolationForestDetector M × TrainStats) :=
  if normal_data.length < 10 then
    .error (.insufficientData normal_data.length)
  else
    let model := fit d.model normal_data
    let trained : IsolationForestDetector M :=
      { model := model, is_trained := true, training_data_size := normal_data.length }
    let training_scores := score_samples model normal_data
    .ok (trained,
      { trained := true
        n_samples := normal_data.length
        n_features := (normal_data.headD []).length
        mean_score := training_scores.sum / (training_scores.length : ℚ)
        std_score := np_std training_scores
        min_score := listMin training_scores
        max_score := listMax training_scores })

/-- `IsolationForestDetector.predict` (anomaly_detector.py:83-97);
`model_predict` is the sklearn call returning ±1 labels. -/
def IsolationForestDetector.predict {M : Type}
    (model_predict : M → List (List ℚ) → List Int)
    (d : IsolationForestDetector M) (data : List (List ℚ)) :
    Except DetectorError (List Int) :=
  if !d.is_trained then .error .modelNotTrained
  else .ok (model_predict d.model data)

/-- `IsolationForestDetector.get_anomaly_scores` (anomaly_detector.py:99-114). -/
def IsolationForestDetector.get_anomaly_scores {M : Type}
    (model_score : M → List (List ℚ) → List ℚ)
    (d : IsolationForestDetector M) (data : List (List ℚ)) :
    Except DetectorError (List ℚ) :=
  if !d.is_trained then .error .modelNotTrained
  else .ok (model_score d.model data)

/-- `IsolationForestDetector._calculate_severity` (anomaly_detector.py:153-175). -/
def calculate_severity (score : ℚ) (is_anomaly : Bool) : String :=
  if !is_anomaly then "NORMAL"
  else if score < -0.4 then "CRITICAL"
  else if score < -0.3 then "HIGH"
  else if score < -0.2 then "MEDIUM"
  else "LOW"

/-- One detection-result dictionary (anomaly_detector.py:133-149). -/
structure DetectionResult where
  index : Nat
  is_anomaly : Bool
  anomaly_score : ℚ
  confidence : ℚ
  severity : String
  deriving Repr, DecidableEq

/-- The per-row body of the loop in `detect_with_confidence`
(anomaly_detector.py:134-149). -/
def detect_row (i : Nat) (pred : Int) (score : ℚ) : DetectionResult :=
  let is_anomaly : Bool := pred == -1
  let confidence : ℚ :=
    if is_anomaly then min 1 (|score| / 0.5)
    else if 0 < score then min 1 (score / 0.5) else 0
  { index := i
    is_anomaly := is_anomaly
    anomaly_score := score
    confidence := confidence
    severity := calculate_severity score is_anomaly }

/-- `IsolationForestDetector.detect_with_confidence`
(anomaly_detector.py:116-151): checks training, obtains predictions and
scores from the (already-trained) model, and maps the row transform over
`enumerate(zip(predictions, scores))`. -/
def IsolationForestDetector.detect_with_confidence {M : Type}
    (model_predict : M → List (List ℚ) → List Int)
    (model_score : M → List (List ℚ) → List ℚ)
    (d : IsolationForestDetector M) (data : List (List ℚ)) :
    Except DetectorError (List DetectionResult) :=
  if !d.is_trained then .error .modelNotTrained
  else
    let predictions := model_predict d.model data
    let scores := model_score d.model data
    .ok ((predictions.zip scores).enum.map (fun p => detect_row p.1 p.2.1 p.2.2))

/-! ## Explanation generator (`ai_agent/explanation_generator.py`) -/

/-- The components of a Python `datetime` read by
`strftime('%Y-%m-%d at %H:%M')`. -/
structure PyDateTime where
  year : Nat
  month : Nat
  day : Nat
  hour : Nat
  minute : Nat
  deriving Repr, DecidableEq

/-- `ExplanationGenerator._format_timestamp` (explanation_generator.py:65-68). -/
def format_timestamp (timestamp : PyDateTime) : String :=
  "On " ++ pad4 timestamp.year ++ "-" ++ pad2 timestamp.month ++ "-" ++ pad2 timestamp.day ++
    " at " ++ pad2 timestamp.hour ++ ":" ++ pad2 timestamp.minute

/-- `ExplanationGenerator._format_detection` (explanation_generator.py:70-91).
Note the sensor inference here checks only the three full substrings
`moisture` / `temperature` / `humidity` — it has no `soil` or `temp`
aliases (those exist only in `AgentDecisionEngine._extract_sensor_type`). -/
def format_detection (anomaly_type severity : String) (confidence : ℚ) : String :=
  let sensor :=
    if strContains (strLower anomaly_type) "moisture" then "soil moisture"
    else if strContains (strLower anomaly_type) "temperature" then "temperature"
    else if strContains (strLower anomaly_type) "humidity" then "humidity"
    else "sensor"
  let severity_desc := if severity ≠ "CRITICAL" then strLower severity else "critical"
  "sensor readings detected a " ++ severity_desc ++ " " ++ sensor ++
    " anomaly (model confidence: " ++ fmt2 confidence ++ ")"

/-- `ExplanationGenerator._format_context` (explanation_generator.py:93-135);
the unused `sensor_context` parameter is dropped. -/
def format_context (recommendation : Recommendation) : String :=
  let parts : List String :=
    (if recommendation.reasoning ≠ "" then [recommendation.reasoning] else []) ++
    (match recommendation.details.drop_percentage with
     | some drop => ["Soil moisture decreased " ++ fmt1 drop ++ "% in recent readings"]
     | none => []) ++
    (match recommendation.details.current_humidity with
     | some humidity =>
         if 85 < humidity then
           ["Current humidity level of " ++ fmt1 humidity ++ "% is in disease risk range"]
         else if humidity < 30 then
           ["Current humidity level of " ++ fmt1 humidity ++ "% may stress crops"]
         else []
     | none => []) ++
    (match recommendation.details.current_reading, recommendation.details.previous_reading with
     | some current, some previous =>
         ["Reading changed from " ++ fmt1 previous ++ " to " ++ fmt1 current ++
           " (change: " ++ fmt1 |current - previous| ++ ")"]
     | _, _ => [])
  if parts ≠ [] then String.intercalate ". " parts ++ "." else ""

/-- `ExplanationGenerator._format_action` (explanation_generator.py:137-153). -/
def format_action (recommendation : Recommendation) : String :=
  let urgencyPre :=
    if recommendation.urgency = "high" then "Immediate action required: "
    else if recommendation.urgency = "medium" then "Recommended action: "
    else "Suggested action: "
  urgencyPre ++ recommendation.description ++ "."

/-- `ExplanationGenerator._format_confidence` (explanation_generator.py:155-165). -/
def format_confidence (confidence : ℚ) : String :=
  let level :=
    if 0.8 ≤ confidence then "high"
    else if 0.6 ≤ confidence then "moderate"
    else "low"
  "Agent confidence: " ++ level ++ " (" ++ fmt2 confidence ++ ")."

/-- The anomaly-event dictionary passed to `generate_explanation`; every
field is read through `dict.get` with a default, so each is optional here.
A string-typed timestamp is parsed by `datetime.fromisoformat` into the
equivalent datetime, so `Option PyDateTime` covers both input shapes. -/
structure AnomalyEventDict where
  timestamp : Option PyDateTime := none
  anomaly_type : Option String := none
  severity : Option String := none
  model_confidence : Option ℚ := none
  deriving Repr, DecidableEq

/-- `ExplanationGenerator.generate_explanation`
(explanation_generator.py:17-63).  `now` models the ambient wall clock:
`anomaly_event.get('timestamp', datetime.now())` substitutes the current
time whenever the event carries no timestamp. -/
def generate_explanation (anomaly_event : AnomalyEventDict)
    (recommendation : Recommendation) (now : PyDateTime) : String :=
  let timestamp := anomaly_event.timestamp.getD now
  let anomaly_type := anomaly_event.anomaly_type.getD "unknown"
  let severity := anomaly_event.severity.getD "unknown"
  let confidence := anomaly_event.model_confidence.getD 0
  let time_str := format_timestamp timestamp
  let detection_str := format_detection anomaly_type severity confidence
  let context_str := format_context recommendation
  let action_str := format_action recommendation
  let confidence_str := format_confidence recommendation.confidence
  pyStrip (time_str ++ ", " ++ detection_str ++ ". " ++ context_str ++ " " ++
    action_str ++ " " ++ confidence_str)

/-! ## Agent service (`ai_agent/agent_service.py`)

`AgentRecommendationService.create_recommendation_for_anomaly` works against
Django ORM objects; the recommendation table is embedded as an explicit store
and `AgentDecisionEngine.process_anomaly` — which reads the external reading
store — is abstracted as a function parameter returning `Except` (its body
may raise; the service catches everything). -/

/-- The fields of an `AnomalyEvent` row used by the service. -/
structure AnomalyEvent where
  id : Nat
  anomaly_type : String
  severity : String
  model_confidence : ℚ
  plot_id : Int
  deriving Repr, DecidableEq

/-- The dictionary returned by `AgentDecisionEngine.process_anomaly`
(agent_service.py:71-77). -/
structure ProcessResult where
  action : String
  explanation : String
  confidence : ℚ
  urgency : String
  deriving Repr, DecidableEq

/-- One persisted `AgentRecommendation` row; `id` is the database identity. -/
structure StoredRecommendation where
  id : Nat
  anomaly_event_id : Nat
  recommended_action : String
  explanation_text : String
  confidence : ℚ
  deriving Repr, DecidableEq

/-- The recommendation table plus its autoincrement counter. -/
structure RecStore where
  next_id : Nat := 1
  recs : List StoredRecommendation := []
  deriving Repr, DecidableEq

/-- `hasattr(anomaly_event, 'recommendation')`: the reverse one-to-one
lookup — the first stored recommendation attached to this anomaly, if any. -/
def RecStore.find (s : RecStore) (anomaly_event_id : Nat) : Option StoredRecommendation :=
  s.recs.find? (fun r => r.anomaly_event_id == anomaly_event_id)

/-- `AgentRecommendation.objects.create(...)` (agent_service.py:149-154). -/
def RecStore.create (s : RecStore) (anomaly_event_id : Nat)
    (recommended_action explanation_text : String) (confidence : ℚ) :
    RecStore × StoredRecommendation :=
  let rec_row : StoredRecommendation :=
    { id := s.next_id
      anomaly_event_id := anomaly_event_id
      recommended_action := recommended_action
      explanation_text := explanation_text
      confidence := confidence }
  ({ next_id := s.next_id + 1, recs := s.recs ++ [rec_row] }, rec_row)

/-- `AgentRecommendationService.create_recommendation_for_anomaly`
(agent_service.py:127-162): return the existing recommendation when one is
already attached; otherwise run `process_anomaly` and persist; any raise
inside the `try` block is caught and reported as `none`. -/
def create_recommendation_for_anomaly
    (process : AnomalyEvent → Except String ProcessResult)
    (store : RecStore) (anomaly_event : AnomalyEvent) :
    RecStore × Option StoredRecommendation :=
  match store.find anomaly_event.id with
  | some existing => (store, some existing)
  | none =>
      match process anomaly_event with
      | .error _ => (store, none)
      | .ok result =>
          let (store2, rec_row) :=
            store.create anomaly_event.id result.action result.explanation result.confidence
          (store2, some rec_row)

/-- `AgentDecisionEngine._extract_sensor_type` (agent_service.py:79-90) —
the orchestrator-side inference, which DOES have the `soil` and `temp`
aliases, unlike `format_detection` above. -/
def extract_sensor_type (anomaly_type : String) : String :=
  let anomaly_lower := strLower anomaly_type
  if strContains anomaly_lower "moisture" || strContains anomaly_lower "soil" then "moisture"
  else if strContains anomaly_lower "temperature" || strContains anomaly_lower "temp" then "temperature"
  else if strContains anomaly_lower "humidity" then "humidity"
  else "unknown"

/-! ## Spec-side definitions and concrete scenario inputs

The `claimed_*` definitions below are written from the spec's words and are
compared against the source-derived definitions above in refinement
theorems; they are NOT translations of the source. -/

/-- `clamp(x, lo, hi)` as the spec words it. -/
def clamp (x lo hi : ℚ) : ℚ := max lo (min hi x)

/-- Severity bucketing exactly as the claim words it: NORMAL for
non-anomalous rows; CRITICAL when score < −0.4; HIGH when −0.4 ≤ score < −0.3;
MEDIUM when −0.3 ≤ score < −0.2; LOW otherwise. -/
def claimed_severity (score : ℚ) (is_anomaly : Bool) : String :=
  if is_anomaly = false then "NORMAL"
  else if score < -0.4 then "CRITICAL"
  else if -0.4 ≤ score ∧ score < -0.3 then "HIGH"
  else if -0.3 ≤ score ∧ score < -0.2 then "MEDIUM"
  else "LOW"

/-- One detection row as the claim describes it: confidence
`clamp(|score|/0.5, 0, 1)` when anomalous and `clamp(score/0.5, 0, 1)`
otherwise, severity via `claimed_severity`. -/
def claimed_row (i : Nat) (pred : Int) (score : ℚ) : DetectionResult :=
  let is_anomaly : Bool := pred == -1
  { index := i
    is_anomaly := is_anomaly
    anomaly_score := score
    confidence :=
      if is_anomaly then clamp (|score| / 0.5) 0 1 else clamp (score / 0.5) 0 1
    severity := claimed_severity score is_anomaly }

/-- The severity wording inside the detection sentence
(explanation_generator.py:86). -/
def severity_desc (severity : String) : String :=
  if severity ≠ "CRITICAL" then strLower severity else "critical"

/-- The detection sentence with an explicitly named sensor, used to state
which sensor `format_detection` inferred. -/
def detection_sentence (severity sensor : String) (confidence : ℚ) : String :=
  "sensor readings detected a " ++ severity_desc severity ++ " " ++ sensor ++
    " anomaly (model confidence: " ++ fmt2 confidence ++ ")"

/-- Does this rule's evaluation raise on this context? -/
def rule_raises (rule : AgriculturalRule) (context : RuleContext) : Bool :=
  match rule.eval context with
  | .error _ => true
  | .ok _ => false

/-- A rule whose evaluation always raises (for exercising the per-rule
error isolation of the engine). -/
def raising_rule : AgriculturalRule :=
  { name := "raising", priority := 99, eval := fun _ => .error "boom" }

/-- Scenario A of the spec (also test 1 of rule_engine.py `__main__`):
moisture readings [65, 60, 52, 45], severity HIGH, confidence 0.85. -/
def irrigation_scenario_context : RuleContext :=
  { anomaly_type := "moisture_anomaly"
    severity := "HIGH"
    model_confidence := 0.85
    sensor_type := "moisture"
    plot_id := 1
    recent_values := [65, 60, 52, 45] }

/-- The temperature context of scenario D (test 2 of rule_engine.py
`__main__`): severity CRITICAL, confidence 0.90. -/
def scenario_d_temperature : RuleContext :=
  { anomaly_type := "temperature_anomaly"
    severity := "CRITICAL"
    model_confidence := 0.9
    sensor_type := "temperature"
    plot_id := 1
    recent_values := [28, 32, 35, 38] }

/-- A context on which no registered rule fires: unknown sensor type, high
confidence, no recent readings. -/
def no_rule_context : RuleContext :=
  { anomaly_type := "other"
    severity := "LOW"
    model_confidence := 0.9
    sensor_type := "unknown"
    plot_id := 2
    recent_values := [] }

/-- A minimal recommendation dictionary (used to exhibit the clock
dependence of `generate_explanation`). -/
def empty_recommendation : Recommendation :=
  { action := "", description := "", urgency := "", confidence := 0, reasoning := "" }

/-! ## Helper lemmas on the engine's selection -/

theorem max_by_rule_priority_cons (first a : Recommendation) (rest : List Recommendation) :
    max_by_rule_priority first (a :: rest) =
      max_by_rule_priority (if first.rule_priority < a.rule_priority then a else first) rest :=
  rfl

theorem max_by_rule_priority_mem (rest : List Recommendation) (first : Recommendation) :
    max_by_rule_priority first rest ∈ first :: rest := by
  induction rest generalizing first with
  | nil => simp [max_by_rule_priority]
  | cons a t ih =>
    rw [max_by_rule_priority_cons]
    have h := ih (if first.rule_priority < a.rule_priority then a else first)
    by_cases hc : first.rule_priority < a.rule_priority <;>
      simp [hc] at h ⊢ <;> tauto

theorem le_max_by_rule_priority (rest : List Recommendation) (first : Recommendation) :
    ∀ r ∈ first :: rest, r.rule_priority ≤ (max_by_rule_priority first rest).rule_priority := by
  induction rest generalizing first with
  | nil =>
    intro r hr
    rw [List.mem_singleton] at hr
    rw [hr]
    exact le_refl _
  | cons a t ih =>
    intro r hr
    rw [max_by_rule_priority_cons]
    by_cases hc : first.rule_priority < a.rule_priority
    · rw [if_pos hc]
      rcases List.mem_cons.1 hr with heq | hr2
      · rw [heq]
        exact le_trans (le_of_lt hc) (ih a a (List.mem_cons_self a t))
      · exact ih a r hr2
    · rw [if_neg hc]
      rcases List.mem_cons.1 hr with heq | hr2
      · rw [heq]
        exact ih first first (List.mem_cons_self first t)
      · rcases List.mem_cons.1 hr2 with heq | hr3
        · rw [heq]
          exact le_trans (not_lt.1 hc) (ih first first (List.mem_cons_self first t))
        · exact ih first r (List.mem_cons_of_mem first hr3)

theorem max_by_rule_priority_first_maximal (rest : List Recommendation)
    (first : Recommendation) :
    ∃ l₁ l₂, first :: rest = l₁ ++ max_by_rule_priority first rest :: l₂ ∧
      ∀ r ∈ l₁, r.rule_priority < (max_by_rule_priority first rest).rule_priority := by
  induction rest generalizing first with
  | nil => exact ⟨[], [], rfl, by simp⟩
  | cons a t ih =>
    rw [max_by_rule_priority_cons]
    by_cases hc : first.rule_priority < a.rule_priority
    · rw [if_pos hc]
      obtain ⟨l₁, l₂, hdec, hlt⟩ := ih a
      refine ⟨first :: l₁, l₂, ?_, ?_⟩
      · rw [List.cons_append, ← hdec]
      · intro r hr
        rcases List.mem_cons.1 hr with heq | hr2
        · rw [heq]
          exact lt_of_lt_of_le hc (le_max_by_rule_priority t a a (List.mem_cons_self a t))
        · exact hlt r hr2
    · rw [if_neg hc]
      obtain ⟨l₁, l₂, hdec, hlt⟩ := ih first
      cases l₁ with
      | nil =>
        rw [List.nil_append] at hdec
        injection hdec with hfirst ht
        refine ⟨[], a :: l₂, ?_, by simp⟩
        rw [List.nil_append, ← hfirst, ht]
      | cons x l₁x =>
        rw [List.cons_append] at hdec
        injection hdec with hx ht
        subst hx
        refine ⟨first :: a :: l₁x, l₂, ?_, ?_⟩
        · rw [List.cons_append, List.cons_append, ← ht]
        · intro r hr
          have hfx : first.rule_priority < (max_by_rule_priority first t).rule_priority :=
            hlt first (List.mem_cons_self first l₁x)
          rcases List.mem_cons.1 hr with heq | hr2
          · rw [heq]; exact hfx
          · rcases List.mem_cons.1 hr2 with heq | hr3
            · rw [heq]
              exact lt_of_le_of_lt (not_lt.1 hc) hfx
            · exact hlt r (List.mem_cons_of_mem first hr3)

/-! ## C1 -/

/-- C1: for every context, `RuleEngine.evaluate` returns a (non-null)
recommendation: when no registered rule fires it is exactly the fixed
default — action `general_monitoring`, urgency `low`, confidence equal to
the context's model confidence — and when at least one rule fires it is one
of the fired recommendations, its `rule_priority` is maximal among them,
and it is the first maximal one in registry order (everything before it in
the fired list has strictly smaller priority). -/
theorem ruleEngine_evaluate_highest_priority_or_default (context : RuleContext) :
    (fired_recommendations RuleEngine.registered_rules context = [] →
      RuleEngine.evaluate context = default_recommendation context ∧
      (RuleEngine.evaluate context).action = "general_monitoring" ∧
      (RuleEngine.evaluate context).urgency = "low" ∧
      (RuleEngine.evaluate context).confidence = context.model_confidence) ∧
    (∀ best rest,
      fired_recommendations RuleEngine.registered_rules context = best :: rest →
      ∃ l₁ l₂,
        best :: rest = l₁ ++ RuleEngine.evaluate context :: l₂ ∧
        (∀ r ∈ l₁, r.rule_priority < (RuleEngine.evaluate context).rule_priority) ∧
        ∀ r ∈ best :: rest, r.rule_priority ≤ (RuleEngine.evaluate context).rule_priority) := by
  constructor
  · intro h
    have he : RuleEngine.evaluate context = default_recommendation context := by
      unfold RuleEngine.evaluate RuleEngine.evaluate_with
      rw [h]
    exact ⟨he, by rw [he]; rfl, by rw [he]; rfl, by rw [he]; rfl⟩
  · intro best rest h
    have he : RuleEngine.evaluate context = max_by_rule_priority best rest := by
      unfold RuleEngine.evaluate RuleEngine.evaluate_with
      rw [h]
    rw [he]
    obtain ⟨l₁, l₂, hdec, hlt⟩ := max_by_rule_priority_first_maximal rest best
    exact ⟨l₁, l₂, hdec, hlt, le_max_by_rule_priority rest best⟩

/-- Witness for C1: the no-fire branch at `no_rule_context`, and the firing
branch at `scenario_d_temperature` (where the heat-stress rule fires). -/
theorem ruleEngine_evaluate_highest_priority_or_default_witness :
    RuleEngine.evaluate no_rule_context = default_recommendation no_rule_context ∧
    ∃ l₁ l₂,
      fired_recommendations RuleEngine.registered_rules scenario_d_temperature =
        l₁ ++ RuleEngine.evaluate scenario_d_temperature :: l₂ := by
  constructor
  · have hnil : fired_recommendations RuleEngine.registered_rules no_rule_context = [] := by
      have hmul : MultipleAnomalyRule.evaluate no_rule_context = none := rfl
      have hirr : IrrigationFailureRule.evaluate no_rule_context = none := rfl
      have hheat : HeatStressRule.evaluate no_rule_context = none := rfl
      have hhum : HumidityAnomalyRule.evaluate no_rule_context = none := rfl
      have hsm : SensorMalfunctionRule.evaluate no_rule_context = none := rfl
      have hlow : LowConfidenceRule.evaluate no_rule_context = none := by
        simp [LowConfidenceRule.evaluate, no_rule_context]
        norm_num
      simp [fired_recommendations, RuleEngine.registered_rules,
        hmul, hirr, hheat, hhum, hsm, hlow]
    exact ((ruleEngine_evaluate_highest_priority_or_default no_rule_context).1 hnil).1
  · have hmul : MultipleAnomalyRule.evaluate scenario_d_temperature = none := rfl
    have hirr : IrrigationFailureRule.evaluate scenario_d_temperature = none := rfl
    have hhum : HumidityAnomalyRule.evaluate scenario_d_temperature = none := rfl
    have hsm : SensorMalfunctionRule.evaluate scenario_d_temperature = none := by
      simp [SensorMalfunctionRule.evaluate, scenario_d_temperature]
      norm_num
    have hlow : LowConfidenceRule.evaluate scenario_d_temperature = none := by
      simp [LowConfidenceRule.evaluate, scenario_d_temperature]
      norm_num
    obtain ⟨rheat, hheat⟩ : ∃ r, HeatStressRule.evaluate scenario_d_temperature = some r :=
      ⟨_, rfl⟩
    have hfired : fired_recommendations RuleEngine.registered_rules scenario_d_temperature =
        [{ rheat with rule_name := "heat_stress", rule_priority := 8 }] := by
      simp [fired_recommendations, RuleEngine.registered_rules, hmul, hirr, hhum, hsm, hlow, hheat]
    obtain ⟨l₁, l₂, hdec, -, -⟩ :=
      (ruleEngine_evaluate_highest_priority_or_default scenario_d_temperature).2
        ({ rheat with rule_name := "heat_stress", rule_priority := 8 }) [] hfired
    exact ⟨l₁, l₂, by rw [hfired, hdec]⟩

/-! ## C4 -/

theorem fired_recommendations_append (rules₁ rules₂ : List AgriculturalRule)
    (context : RuleContext) :
    fired_recommendations (rules₁ ++ rules₂) context =
      fired_recommendations rules₁ context ++ fired_recommendations rules₂ context := by
  induction rules₁ with
  | nil => rfl
  | cons rule rules ih => simp [fired_recommendations, ih]

theorem fired_recommendations_filter (rules : List AgriculturalRule) (context : RuleContext) :
    fired_recommendations (rules.filter (fun r => !rule_raises r context)) context =
      fired_recommendations rules context := by
  induction rules with
  | nil => rfl
  | cons rule rules ih =>
    rcases he : rule.eval context with e | o
    · have hr : rule_raises rule context = true := by simp [rule_raises, he]
      simp [List.filter_cons, hr, fired_recommendations, he, ih]
    · have hr : rule_raises rule context = false := by simp [rule_raises, he]
      simp [List.filter_cons, hr, fired_recommendations, he, ih]

/-- C4: a rule whose evaluation raises is caught and treated as not
applicable: deleting it from the registry does not change the result, and
in general the engine's result over any registry equals its result over the
registry with all raising rules removed — the remaining rules are still
evaluated and the outcome they determine is unchanged (and, the result
being a total function, a recommendation is always returned). -/
theorem evaluate_isolates_rule_errors (context : RuleContext) :
    (∀ rules₁ rules₂ (bad : AgriculturalRule), rule_raises bad context = true →
      RuleEngine.evaluate_with (rules₁ ++ bad :: rules₂) context =
        RuleEngine.evaluate_with (rules₁ ++ rules₂) context) ∧
    (∀ rules : List AgriculturalRule,
      RuleEngine.evaluate_with rules context =
        RuleEngine.evaluate_with (rules.filter (fun r => !rule_raises r context)) context) ∧
    RuleEngine.evaluate context =
      RuleEngine.evaluate_with
        (RuleEngine.registered_rules.filter (fun r => !rule_raises r context)) context := by
  have hfilter : ∀ rules : List AgriculturalRule,
      RuleEngine.evaluate_with rules context =
        RuleEngine.evaluate_with (rules.filter (fun r => !rule_raises r context)) context := by
    intro rules
    unfold RuleEngine.evaluate_with
    rw [fired_recommendations_filter]
  refine ⟨?_, hfilter, hfilter RuleEngine.registered_rules⟩
  intro rules₁ rules₂ bad hbad
  have hfb : fired_recommendations [bad] context = [] := by
    rcases he : bad.eval context with e | o
    · simp [fired_recommendations, he]
    · exfalso
      rw [rule_raises, he] at hbad
      simp at hbad
  have h1 : fired_recommendations (rules₁ ++ bad :: rules₂) context =
      fired_recommendations (rules₁ ++ rules₂) context := by
    rw [show bad :: rules₂ = [bad] ++ rules₂ from rfl, fired_recommendations_append,
      fired_recommendations_append, hfb, List.nil_append, ← fired_recommendations_append]
  unfold RuleEngine.evaluate_with
  rw [h1]

/-- Witness for C4: inserting an always-raising rule after the registry
leaves the evaluation of scenario A unchanged. -/
theorem evaluate_isolates_rule_errors_witness :
    RuleEngine.evaluate_with (RuleEngine.registered_rules ++ raising_rule :: [])
        irrigation_scenario_context =
      RuleEngine.evaluate_with (RuleEngine.registered_rules ++ [])
        irrigation_scenario_context :=
  (evaluate_isolates_rule_errors irrigation_scenario_context).1
    RuleEngine.registered_rules [] raising_rule rfl

/-! ## C2 -/

theorem clamp_of_nonneg (x : ℚ) (hx : 0 ≤ x) : clamp x 0 1 = min 1 x := by
  unfold clamp
  rw [max_eq_right (le_min zero_le_one hx)]

theorem clamp_of_nonpos (x : ℚ) (hx : x ≤ 0) : clamp x 0 1 = 0 := by
  unfold clamp
  rw [min_eq_right (le_trans hx zero_le_one), max_eq_left hx]

theorem calculate_severity_eq_claimed (score : ℚ) (b : Bool) :
    calculate_severity score b = claimed_severity score b := by
  cases b with
  | false => rfl
  | true =>
    unfold calculate_severity claimed_severity
    simp only [Bool.not_true, Bool.false_eq_true, if_false, reduceCtorEq]
    split_ifs <;> first | rfl | (exfalso; simp_all)

theorem detect_row_eq_claimed_row (i : Nat) (pred : Int) (score : ℚ) :
    detect_row i pred score = claimed_row i pred score := by
  simp only [detect_row, claimed_row, calculate_severity_eq_claimed]
  rcases hb : (pred == -1 : Bool) with _ | _
  · simp only [hb, Bool.false_eq_true, if_false]
    rcases le_or_lt score 0 with hs | hs
    · rw [clamp_of_nonpos _ (div_nonpos_of_nonpos_of_nonneg hs (by norm_num)),
        if_neg (not_lt.2 hs)]
    · rw [clamp_of_nonneg _ (div_nonneg (le_of_lt hs) (by norm_num)), if_pos hs]
  · simp only [hb, eq_self_iff_true, if_true]
    rw [clamp_of_nonneg _ (div_nonneg (abs_nonneg score) (by norm_num))]

/-- C2: `detect_with_confidence`, when the detector is trained, returns one
row per `(prediction, score)` pair in which the confidence is
`clamp(|score|/0.5, 0, 1)` for rows predicted anomalous and
`clamp(score/0.5, 0, 1)` otherwise, and the severity is NORMAL for
non-anomalous rows and CRITICAL / HIGH / MEDIUM / LOW for anomalous rows
according to score < −0.4, −0.4 ≤ score < −0.3, −0.3 ≤ score < −0.2, and
the rest, as `claimed_row` / `claimed_severity` state it. -/
theorem detect_with_confidence_clamp_severity {M : Type}
    (model_predict : M → List (List ℚ) → List Int)
    (model_score : M → List (List ℚ) → List ℚ)
    (d : IsolationForestDetector M) (data : List (List ℚ))
    (h : d.is_trained = true) :
    IsolationForestDetector.detect_with_confidence model_predict model_score d data =
      .ok (((model_predict d.model data).zip (model_score d.model data)).enum.map
        (fun p => claimed_row p.1 p.2.1 p.2.2)) := by
  unfold IsolationForestDetector.detect_with_confidence
  rw [h]
  simp [detect_row_eq_claimed_row]

/-- Witness for C2: a trained detector over an abstract model returning one
anomalous row (score −0.45 : CRITICAL, confidence 0.9) and one normal row
(score 0.2). -/
theorem detect_with_confidence_clamp_severity_witness :
    IsolationForestDetector.detect_with_confidence (M := Unit)
        (fun _ _ => [-1, 1]) (fun _ _ => [-0.45, 0.2])
        { model := (), is_trained := true, training_data_size := 10 } [] =
      .ok [claimed_row 0 (-1) (-0.45), claimed_row 1 1 0.2] ∧
    (claimed_row 0 (-1) (-0.45)).severity = "CRITICAL" ∧
    (claimed_row 0 (-1) (-0.45)).confidence = 0.9 ∧
    (claimed_row 1 1 0.2).severity = "NORMAL" := by
  refine ⟨?_, ?_, ?_, ?_⟩
  · rw [detect_with_confidence_clamp_severity (M := Unit)
      (fun _ _ => [-1, 1]) (fun _ _ => [-0.45, 0.2])
      { model := (), is_trained := true, training_data_size := 10 } [] rfl]
    rfl
  · simp [claimed_row, claimed_severity]
    norm_num
  · have habs : |(-0.45 : ℚ)| = 0.45 := by
      rw [abs_of_neg (by norm_num)]
      norm_num
    simp [claimed_row, clamp, habs]
    norm_num
  · simp [claimed_row, claimed_severity]

/-! ## C3 -/

/-- C3: `train` fails with the insufficient-data error exactly when the
matrix has fewer than 10 rows (and that is the only failure), a successful
train marks the detector trained and returns the training statistics for
those rows; `predict` and `score` fail with the model-not-trained error
exactly when the detector has not been successfully trained (a fresh
detector starts untrained, so this means no prior successful `train`). -/
theorem train_predict_error_conditions {M : Type}
    (fit : M → List (List ℚ) → M) (score_samples : M → List (List ℚ) → List ℚ)
    (np_std : List ℚ → ℚ) (model_predict : M → List (List ℚ) → List Int)
    (model_score : M → List (List ℚ) → List ℚ) (m : M)
    (d : IsolationForestDetector M) (data normal_data : List (List ℚ)) :
    (IsolationForestDetector.train fit score_samples np_std d normal_data =
        .error (.insufficientData normal_data.length) ↔ normal_data.length < 10) ∧
    ((∃ e, IsolationForestDetector.train fit score_samples np_std d normal_data = .error e) ↔
        normal_data.length < 10) ∧
    (∀ d2 stats, IsolationForestDetector.train fit score_samples np_std d normal_data =
        .ok (d2, stats) →
      d2.is_trained = true ∧ stats.n_samples = normal_data.length ∧ stats.trained = true) ∧
    (IsolationForestDetector.predict model_predict d data = .error .modelNotTrained ↔
        d.is_trained = false) ∧
    ((∃ out, IsolationForestDetector.predict model_predict d data = .ok out) ↔
        d.is_trained = true) ∧
    (IsolationForestDetector.get_anomaly_scores model_score d data = .error .modelNotTrained ↔
        d.is_trained = false) ∧
    (IsolationForestDetector.init m).is_trained = false := by
  unfold IsolationForestDetector.train IsolationForestDetector.predict
    IsolationForestDetector.get_anomaly_scores IsolationForestDetector.init
  refine ⟨?_, ?_, ?_, ?_, ?_, ?_, rfl⟩
  · split_ifs with h <;> simp [h]
  · split_ifs with h <;> simp [h]
  · split_ifs with h
    · simp
    · intro d2 stats hok
      simp only [Except.ok.injEq, Prod.mk.injEq] at hok
      obtain ⟨hd2, hstats⟩ := hok
      rw [← hd2, ← hstats]
      exact ⟨rfl, rfl, rfl⟩
  · cases hb : d.is_trained <;> simp [hb]
  · cases hb : d.is_trained <;> simp [hb]
  · cases hb : d.is_trained <;> simp [hb]

/-- Witness for C3: over a trivial abstract model, training a fresh
detector on 9 rows fails with the insufficient-data error, predicting on a
fresh (untrained) detector fails with the model-not-trained error, and
training on 10 rows succeeds and marks the detector trained. -/
theorem train_predict_error_conditions_witness :
    IsolationForestDetector.train (M := Unit) (fun _ _ => ()) (fun _ _ => []) (fun _ => 0)
        (IsolationForestDetector.init ()) (List.replicate 9 [0]) =
      .error (.insufficientData 9) ∧
    IsolationForestDetector.predict (M := Unit) (fun _ _ => [])
        (IsolationForestDetector.init ()) [] = .error .modelNotTrained ∧
    ∀ d2 stats,
      IsolationForestDetector.train (M := Unit) (fun _ _ => ()) (fun _ _ => []) (fun _ => 0)
          (IsolationForestDetector.init ()) (List.replicate 10 [0]) = .ok (d2, stats) →
        d2.is_trained = true ∧ stats.n_samples = (List.replicate 10 ([0] : List ℚ)).length ∧
          stats.trained = true := by
  refine ⟨?_, ?_, ?_⟩
  · have h := (train_predict_error_conditions (M := Unit) (fun _ _ => ()) (fun _ _ => [])
      (fun _ => 0) (fun _ _ => []) (fun _ _ => []) () (IsolationForestDetector.init ())
      [] (List.replicate 9 [0])).1
    simpa using h.mpr (by simp)
  · exact (train_predict_error_conditions (M := Unit) (fun _ _ => ()) (fun _ _ => [])
      (fun _ => 0) (fun _ _ => []) (fun _ _ => []) () (IsolationForestDetector.init ())
      [] []).2.2.2.1.mpr rfl
  · exact (train_predict_error_conditions (M := Unit) (fun _ _ => ()) (fun _ _ => [])
      (fun _ => 0) (fun _ _ => []) (fun _ _ => []) () (IsolationForestDetector.init ())
      [] (List.replicate 10 [0])).2.2.1

/-! ## C5 -/

/-- C5: on scenario A — moisture, severity HIGH, model confidence 0.85,
recent values [65, 60, 52, 45] — `RuleEngine.evaluate` selects the
irrigation-failure rule and returns action `immediate_irrigation_check`
with urgency `high`, a `drop_percentage` detail of (65−45)/65·100
(≈ 30.77), and confidence min(0.95, 0.85+0.1) = 0.95. -/
theorem evaluate_scenario_irrigation :
    (RuleEngine.evaluate irrigation_scenario_context).action = "immediate_irrigation_check" ∧
    (RuleEngine.evaluate irrigation_scenario_context).urgency = "high" ∧
    (RuleEngine.evaluate irrigation_scenario_context).rule_name = "irrigation_failure" ∧
    (RuleEngine.evaluate irrigation_scenario_context).details.drop_percentage =
      some ((65 - 45) / 65 * 100) ∧
    (RuleEngine.evaluate irrigation_scenario_context).confidence = min 0.95 (0.85 + 0.1) ∧
    min (0.95 : ℚ) (0.85 + 0.1) = 0.95 := by
  have hlast : ([65, 60, 52, 45] : List ℚ).getLastD 0 = 45 := rfl
  have hhead : ([65, 60, 52, 45] : List ℚ).headD 0 = 65 := rfl
  have hprev : (([65, 60, 52, 45] : List ℚ).dropLast).getLastD 0 = 52 := rfl
  have hirr : IrrigationFailureRule.evaluate irrigation_scenario_context =
      some { action := "immediate_irrigation_check"
             description := "Check irrigation system immediately - possible leak or pump failure"
             urgency := "high"
             confidence := min 0.95 (0.85 + 0.1)
             reasoning := "Soil moisture dropped " ++ fmt1 ((65 - 45) / 65 * 100) ++ "% rapidly"
             details := { drop_percentage := some ((65 - 45) / 65 * 100)
                          initial_value := some 65
                          current_value := some 45
                          time_window := some "recent readings" } } := by
    simp [IrrigationFailureRule.evaluate, irrigation_scenario_context, hlast, hhead]
    norm_num
  have hmul : MultipleAnomalyRule.evaluate irrigation_scenario_context = none := rfl
  have hheat : HeatStressRule.evaluate irrigation_scenario_context = none := rfl
  have hhum : HumidityAnomalyRule.evaluate irrigation_scenario_context = none := rfl
  have habs : |(45 : ℚ) - 52| = 7 := by
    rw [abs_of_neg (by norm_num : (45 : ℚ) - 52 < 0)]
    norm_num
  have hsm : SensorMalfunctionRule.evaluate irrigation_scenario_context = none := by
    simp [SensorMalfunctionRule.evaluate, irrigation_scenario_context, hlast, hprev, habs]
    norm_num
  have hlow : LowConfidenceRule.evaluate irrigation_scenario_context = none := by
    simp [LowConfidenceRule.evaluate, irrigation_scenario_context]
    norm_num
  have hfired : fired_recommendations RuleEngine.registered_rules irrigation_scenario_context =
      [{ action := "immediate_irrigation_check"
         description := "Check irrigation system immediately - possible leak or pump failure"
         urgency := "high"
         confidence := min 0.95 (0.85 + 0.1)
         reasoning := "Soil moisture dropped " ++ fmt1 ((65 - 45) / 65 * 100) ++ "% rapidly"
         details := { drop_percentage := some ((65 - 45) / 65 * 100)
                      initial_value := some 65
                      current_value := some 45
                      time_window := some "recent readings" }
         rule_name := "irrigation_failure"
         rule_priority := 9 }] := by
    simp [fired_recommendations, RuleEngine.registered_rules, hmul, hirr, hheat, hhum, hsm, hlow]
  have heval : RuleEngine.evaluate irrigation_scenario_context =
      { action := "immediate_irrigation_check"
        description := "Check irrigation system immediately - possible leak or pump failure"
        urgency := "high"
        confidence := min 0.95 (0.85 + 0.1)
        reasoning := "Soil moisture dropped " ++ fmt1 ((65 - 45) / 65 * 100) ++ "% rapidly"
        details := { drop_percentage := some ((65 - 45) / 65 * 100)
                     initial_value := some 65
                     current_value := some 45
                     time_window := some "recent readings" }
        rule_name := "irrigation_failure"
        rule_priority := 9 } := by
    unfold RuleEngine.evaluate RuleEngine.evaluate_with
    rw [hfired]
    rfl
  rw [heval]
  refine ⟨rfl, rfl, rfl, rfl, rfl, ?_⟩
  rw [min_def]
  norm_num

/-! ## C6 -/

/-- C6: `evaluate_multiple_anomalies` on a single-element list returns
exactly what `evaluate` returns on that context; on any list of two or
more contexts it returns the MultipleAnomaly recommendation — action
`comprehensive_inspection`, urgency `high`, rule priority 10, confidence
the arithmetic mean of the members' model confidences, reasoning listing
the distinct sensor types involved — independent of single-rule
evaluation; in particular for moisture/HIGH/0.85 together with
temperature/CRITICAL/0.90 the confidence is 0.875. -/
theorem evaluate_multiple_anomalies_spec :
    (∀ c : RuleContext, RuleEngine.evaluate_multiple_anomalies [c] =
        .ok (RuleEngine.evaluate c)) ∧
    (∀ contexts : List RuleContext, 2 ≤ contexts.length →
      ∃ r, RuleEngine.evaluate_multiple_anomalies contexts = .ok r ∧
        r.action = "comprehensive_inspection" ∧
        r.urgency = "high" ∧
        r.rule_priority = 10 ∧
        r.rule_name = "multiple_anomaly" ∧
        r.confidence =
          (contexts.map (fun c => c.model_confidence)).sum / (contexts.length : ℚ) ∧
        r.reasoning = "Multiple sensor anomalies detected: " ++
          String.intercalate ", " ((contexts.map (fun c => c.sensor_type)).eraseDups) ∧
        r.details.affected_sensors = contexts.map (fun c => c.sensor_type)) ∧
    (∃ r, RuleEngine.evaluate_multiple_anomalies
        [irrigation_scenario_context, scenario_d_temperature] = .ok r ∧
        r.confidence = 0.875 ∧ r.action = "comprehensive_inspection" ∧
        r.urgency = "high") := by
  refine ⟨fun c => rfl, ?_, ?_⟩
  · intro contexts h2
    rcases contexts with _ | ⟨a, _ | ⟨b, t⟩⟩
    · simp at h2
    · simp at h2
    · exact ⟨_, rfl, rfl, rfl, rfl, rfl, rfl, rfl, rfl⟩
  · refine ⟨_, rfl, ?_, rfl, rfl⟩
    show ((([irrigation_scenario_context, scenario_d_temperature].map
        (fun x => x.model_confidence))).sum /
      (([irrigation_scenario_context, scenario_d_temperature].length : Nat) : ℚ)) = 0.875
    simp [irrigation_scenario_context, scenario_d_temperature]
    norm_num

/-- Witness for C6: applying the two-or-more branch to the concrete pair
`[no_rule_context, scenario_d_temperature]`. -/
theorem evaluate_multiple_anomalies_spec_witness :
    ∃ r, RuleEngine.evaluate_multiple_anomalies
        [no_rule_context, scenario_d_temperature] = .ok r ∧
      r.action = "comprehensive_inspection" ∧
      r.urgency = "high" ∧
      r.rule_priority = 10 ∧
      r.rule_name = "multiple_anomaly" ∧
      r.confidence =
        ([no_rule_context, scenario_d_temperature].map (fun c => c.model_confidence)).sum /
          (([no_rule_context, scenario_d_temperature].length : Nat) : ℚ) ∧
      r.reasoning = "Multiple sensor anomalies detected: " ++
        String.intercalate ", "
          (([no_rule_context, scenario_d_temperature].map (fun c => c.sensor_type)).eraseDups) ∧
      r.details.affected_sensors =
        [no_rule_context, scenario_d_temperature].map (fun c => c.sensor_type) :=
  evaluate_multiple_anomalies_spec.2.1 [no_rule_context, scenario_d_temperature] (by simp)

/-! ## C10 -/

/-- C10: `evaluate_multiple_anomalies` is total only on non-empty lists —
on the empty list the Python body raises (modelled by the `.error` result:
the average-confidence computation divides by zero before the severity
maximum is even taken), while every non-empty list yields a
recommendation; the spec states no such precondition. -/
theorem evaluate_multiple_anomalies_empty_raises :
    (∃ msg, RuleEngine.evaluate_multiple_anomalies [] = .error msg) ∧
    ∀ contexts : List RuleContext, contexts ≠ [] →
      ∃ r, RuleEngine.evaluate_multiple_anomalies contexts = .ok r := by
  refine ⟨⟨"ZeroDivisionError: division by zero", rfl⟩, ?_⟩
  intro contexts h
  rcases contexts with _ | ⟨a, _ | ⟨b, t⟩⟩
  · exact absurd rfl h
  · exact ⟨_, rfl⟩
  · exact ⟨_, rfl⟩

/-- Witness for C10: a singleton list yields a recommendation. -/
theorem evaluate_multiple_anomalies_empty_raises_witness :
    ∃ r, RuleEngine.evaluate_multiple_anomalies [no_rule_context] = .ok r :=
  evaluate_multiple_anomalies_empty_raises.2 [no_rule_context] (List.cons_ne_nil _ _)

/-! ## C7 -/

theorem find?_append_of_none {α : Type} (p : α → Bool) (l₁ l₂ : List α)
    (h : l₁.find? p = none) : (l₁ ++ l₂).find? p = l₂.find? p := by
  induction l₁ with
  | nil => rfl
  | cons a t ih =>
    rcases hpa : p a with _ | _
    · rw [List.cons_append, List.find?_cons_of_neg _ (by simp [hpa])]
      rw [List.find?_cons_of_neg _ (by simp [hpa])] at h
      exact ih h
    · rw [List.find?_cons_of_pos _ hpa] at h
      exact absurd h (by simp)

/-- C7: `create_recommendation_for_anomaly` is idempotent per anomaly
identity — when a recommendation already exists for the anomaly it is
returned unchanged and nothing new is created; running the operation a
second time returns exactly the first run's store and result (same
recommendation identity); and a failure inside creation is caught and
reported as a `none` result with the store untouched, never propagated. -/
theorem create_recommendation_idempotent
    (process : AnomalyEvent → Except String ProcessResult)
    (store : RecStore) (anomaly_event : AnomalyEvent) :
    (∀ rec, store.find anomaly_event.id = some rec →
      create_recommendation_for_anomaly process store anomaly_event = (store, some rec)) ∧
    (create_recommendation_for_anomaly process
        (create_recommendation_for_anomaly process store anomaly_event).1 anomaly_event =
      create_recommendation_for_anomaly process store anomaly_event) ∧
    (store.find anomaly_event.id = none →
      ∀ msg, process anomaly_event = .error msg →
        create_recommendation_for_anomaly process store anomaly_event = (store, none)) := by
  refine ⟨?_, ?_, ?_⟩
  · intro rec hrec
    simp [create_recommendation_for_anomaly, hrec]
  · rcases hfind : store.find anomaly_event.id with _ | rec
    · rcases hp : process anomaly_event with msg | result
      · have h1 : create_recommendation_for_anomaly process store anomaly_event =
            (store, none) := by
          simp [create_recommendation_for_anomaly, hfind, hp]
        rw [h1]
        exact h1
      · have h1 : create_recommendation_for_anomaly process store anomaly_event =
            ({ next_id := store.next_id + 1,
               recs := store.recs ++
                 [{ id := store.next_id, anomaly_event_id := anomaly_event.id,
                    recommended_action := result.action,
                    explanation_text := result.explanation,
                    confidence := result.confidence }] },
             some { id := store.next_id, anomaly_event_id := anomaly_event.id,
                    recommended_action := result.action,
                    explanation_text := result.explanation,
                    confidence := result.confidence }) := by
          simp [create_recommendation_for_anomaly, RecStore.create, hfind, hp]
        have hfind2 : RecStore.find
            { next_id := store.next_id + 1,
              recs := store.recs ++
                [{ id := store.next_id, anomaly_event_id := anomaly_event.id,
                   recommended_action := result.action,
                   explanation_text := result.explanation,
                   confidence := result.confidence }] } anomaly_event.id =
            some { id := store.next_id, anomaly_event_id := anomaly_event.id,
                   recommended_action := result.action,
                   explanation_text := result.explanation,
                   confidence := result.confidence } := by
          unfold RecStore.find at hfind ⊢
          rw [find?_append_of_none _ _ _ hfind]
          simp [List.find?]
        rw [h1]
        simp [create_recommendation_for_anomaly, hfind2]
    · have h1 : create_recommendation_for_anomaly process store anomaly_event =
          (store, some rec) := by
        simp [create_recommendation_for_anomaly, hfind]
      rw [h1]
      simp [create_recommendation_for_anomaly, hfind]
  · intro hfind msg hp
    simp [create_recommendation_for_anomaly, hfind, hp]

/-- Witness for C7: a failing `process_anomaly` is caught (empty store,
result `none`, store unchanged), and an anomaly that already has a stored
recommendation gets exactly that row back. -/
theorem create_recommendation_idempotent_witness :
    create_recommendation_for_anomaly (fun _ => .error "db down") {}
        { id := 7, anomaly_type := "moisture_anomaly", severity := "HIGH",
          model_confidence := 0.85, plot_id := 1 } = ({}, none) ∧
    create_recommendation_for_anomaly
        (fun _ => .ok { action := "irrigation_check", explanation := "e",
                        confidence := 0.7, urgency := "medium" })
        { next_id := 3,
          recs := [{ id := 2, anomaly_event_id := 7, recommended_action := "a",
                     explanation_text := "x", confidence := 0.5 }] }
        { id := 7, anomaly_type := "moisture_anomaly", severity := "HIGH",
          model_confidence := 0.85, plot_id := 1 } =
      ({ next_id := 3,
         recs := [{ id := 2, anomaly_event_id := 7, recommended_action := "a",
                    explanation_text := "x", confidence := 0.5 }] },
       some { id := 2, anomaly_event_id := 7, recommended_action := "a",
              explanation_text := "x", confidence := 0.5 }) := by
  constructor
  · exact (create_recommendation_idempotent (fun _ => .error "db down") {} _).2.2 rfl
      "db down" rfl
  · exact (create_recommendation_idempotent _ _ _).1 _ rfl

/-! ## C8 -/

/-- C8 counterexample: `generate_explanation` is NOT deterministic for all
inputs — when the anomaly dictionary carries no timestamp, the sentence is
built from `datetime.now()`, so two invocations with equal inputs at
different wall-clock times produce different strings. -/
theorem generate_explanation_clock_dependent :
    generate_explanation { timestamp := none } empty_recommendation
        { year := 2024, month := 1, day := 1, hour := 0, minute := 0 } ≠
      generate_explanation { timestamp := none } empty_recommendation
        { year := 2024, month := 1, day := 2, hour := 0, minute := 0 } := by
  simp only [generate_explanation, empty_recommendation, format_timestamp, format_detection,
    format_context, format_action, format_confidence, fmt2, Option.getD_none, Option.getD_some,
    zero_mul, round_zero, Int.natAbs_zero, Nat.zero_div, Nat.zero_mod]
  norm_num
  decide

/-- C8 (amended): `generate_explanation` is deterministic on every input
whose anomaly dictionary carries a timestamp — the output then depends only
on the two arguments, not on the ambient clock. -/
theorem generate_explanation_deterministic_with_timestamp
    (anomaly_event : AnomalyEventDict) (recommendation : Recommendation) (t : PyDateTime)
    (now₁ now₂ : PyDateTime) (h : anomaly_event.timestamp = some t) :
    generate_explanation anomaly_event recommendation now₁ =
      generate_explanation anomaly_event recommendation now₂ := by
  unfold generate_explanation
  rw [h]
  simp only [Option.getD_some]

/-- Witness for C8: a timestamped anomaly gives the same explanation under
two different clock readings. -/
theorem generate_explanation_deterministic_with_timestamp_witness :
    generate_explanation
        { timestamp := some { year := 2025, month := 6, day := 1, hour := 12, minute := 0 } }
        empty_recommendation { year := 2024, month := 1, day := 1, hour := 0, minute := 0 } =
      generate_explanation
        { timestamp := some { year := 2025, month := 6, day := 1, hour := 12, minute := 0 } }
        empty_recommendation { year := 2024, month := 1, day := 2, hour := 0, minute := 0 } :=
  generate_explanation_deterministic_with_timestamp _ _ _ _ _ rfl

/-! ## C9 -/

/-- C9 counterexample: the detection sentence of `generate_explanation`
has NO `soil` alias — the label "soil_anomaly" contains `soil`, yet
`_format_detection` names the generic "sensor", not "soil moisture"
(the `soil`/`temp` aliases exist only in the orchestrator's
`_extract_sensor_type`). -/
theorem format_detection_soil_counterexample :
    strContains (strLower "soil_anomaly") "soil" = true ∧
    format_detection "soil_anomaly" "HIGH" 0 = detection_sentence "HIGH" "sensor" 0 ∧
    detection_sentence "HIGH" "sensor" 0 ≠ detection_sentence "HIGH" "soil moisture" 0 := by
  refine ⟨by decide, ?_, ?_⟩
  · simp only [format_detection, detection_sentence, severity_desc, fmt2, zero_mul, round_zero,
      Int.natAbs_zero, Nat.zero_div, Nat.zero_mod]
    decide
  · simp only [detection_sentence, severity_desc, fmt2, zero_mul, round_zero, Int.natAbs_zero,
      Nat.zero_div, Nat.zero_mod]
    norm_num
    decide

/-- C9 (amended): the detection sentence infers its sensor name from the
lowercased anomaly-type label by substring match on exactly `moisture` →
"soil moisture", else `temperature` → "temperature", else `humidity` →
"humidity", and otherwise names the generic "sensor" (no `soil` or `temp`
aliases). -/
theorem format_detection_sensor_inference (label severity : String) (confidence : ℚ) :
    (strContains (strLower label) "moisture" = true →
      format_detection label severity confidence =
        detection_sentence severity "soil moisture" confidence) ∧
    (strContains (strLower label) "moisture" = false →
      strContains (strLower label) "temperature" = true →
      format_detection label severity confidence =
        detection_sentence severity "temperature" confidence) ∧
    (strContains (strLower label) "moisture" = false →
      strContains (strLower label) "temperature" = false →
      strContains (strLower label) "humidity" = true →
      format_detection label severity confidence =
        detection_sentence severity "humidity" confidence) ∧
    (strContains (strLower label) "moisture" = false →
      strContains (strLower label) "temperature" = false →
      strContains (strLower label) "humidity" = false →
      format_detection label severity confidence =
        detection_sentence severity "sensor" confidence) := by
  refine ⟨?_, ?_, ?_, ?_⟩
  · intro h1
    simp [format_detection, detection_sentence, severity_desc, h1]
  · intro h1 h2
    simp [format_detection, detection_sentence, severity_desc, h1, h2]
  · intro h1 h2 h3
    simp [format_detection, detection_sentence, severity_desc, h1, h2, h3]
  · intro h1 h2 h3
    simp [format_detection, detection_sentence, severity_desc, h1, h2, h3]

/-- Witness for C9: a label containing `moisture` names "soil moisture",
and a label containing only the `temp` fragment (not `temperature`) falls
through to the generic "sensor". -/
theorem format_detection_sensor_inference_witness :
    format_detection "moisture_anomaly" "HIGH" 0 =
      detection_sentence "HIGH" "soil moisture" 0 ∧
    format_detection "temp_spike" "LOW" 0 = detection_sentence "LOW" "sensor" 0 := by
  constructor
  · exact (format_detection_sensor_inference "moisture_anomaly" "HIGH" 0).1 (by decide)
  · exact (format_detection_sensor_inference "temp_spike" "LOW" 0).2.2.2
      (by decide) (by decide) (by decide)
